import Mathlib

/-!
# Verification of the librarybot lending ledger

A shallow embedding of the SQLite-backed state and the bot commands of
`librarybot.py`.  Each table row becomes a structure, the database becomes
`LibraryState`, and each command's SQL becomes an explicit state transformer.
Timestamps are integers counting seconds (Python `datetime` at microsecond
granularity is not needed by any claim; one second is the unit, one day is
86400 seconds).
-/

/-- A row of the `books` table:
`(title, binding, authors, series, available, isbn, location)`.
`available` is an SQLite INTEGER with no constraint, so it is `Int`. -/
structure Book where
  title : String
  binding : String
  authors : String
  series : Option String
  available : Int
  isbn : String
  location : Option String
deriving Repr, DecidableEq

/-- A row of the `users` table: `(username, userid, banned)`. -/
structure User where
  username : String
  userid : Nat
  banned : Bool
deriving Repr, DecidableEq

/-- A row of the `loans` table:
`(rdate, bdate, estrdate, returned, userid, isbn)`.
`rdate` (return date) is nullable; `bdate` is the borrow date and
`estrdate` the estimated return (due) date. -/
structure Loan where
  rdate : Option Int
  bdate : Int
  estrdate : Int
  returned : Bool
  userid : Nat
  isbn : String
deriving Repr, DecidableEq

/-- The whole database: the three tables, each as a list of rows in
insertion order. -/
structure LibraryState where
  books : List Book
  users : List User
  loans : List Loan
deriving Repr, DecidableEq

/-- The configuration the bot reads from `config.yml`:
`LOAN_PERIOD` (days) and `MAX_LOANS`. -/
structure Config where
  loanPeriod : Int
  maxLoans : Nat
deriving Repr, DecidableEq

/-- One day in seconds, the unit behind `datetime.timedelta(days=...)`. -/
def secondsPerDay : Int := 86400

/-- `SELECT * FROM users WHERE userid = ...` (userid is the primary key). -/
def findUser (s : LibraryState) (userId : Nat) : Option User :=
  s.users.find? (fun u => u.userid == userId)

/-- The WHERE clause `userid = ... AND isbn = ... AND returned IS FALSE`. -/
def isActivePair (userId : Nat) (isbn : String) (l : Loan) : Bool :=
  l.userid == userId && l.isbn == isbn && !l.returned

/-- The WHERE clause `userid = ... AND returned IS FALSE`. -/
def isActiveOf (userId : Nat) (l : Loan) : Bool :=
  l.userid == userId && !l.returned

/-- `SELECT ... FROM loans WHERE userid = ... AND isbn = ... AND returned IS FALSE`. -/
def activePairLoans (s : LibraryState) (userId : Nat) (isbn : String) : List Loan :=
  s.loans.filter (isActivePair userId isbn)

/-- `SELECT isbn FROM loans WHERE userid = ... AND returned IS FALSE`. -/
def activeLoans (s : LibraryState) (userId : Nat) : List Loan :=
  s.loans.filter (isActiveOf userId)

/-- `SELECT * FROM books WHERE isbn IS ... AND available >= 1` (first row). -/
def findAvailableBook (s : LibraryState) (isbn : String) : Option Book :=
  s.books.find? (fun b => b.isbn == isbn && 1 ≤ b.available)

/-- The outcome of the `borrow` command: each branch of the command's
if/else ladder, carrying the database state when the command finishes
(the user INSERT at the top of `borrow` is committed even when a later
check fails). -/
inductive BorrowOutcome where
  | outBanned (s : LibraryState)
  | outDuplicateLoan (s : LibraryState)
  | outLoanLimit (s : LibraryState)
  | outUnavailable (s : LibraryState)
  | outSuccess (s : LibraryState)
deriving Repr, DecidableEq

/-- The database state carried by a `BorrowOutcome`. -/
def BorrowOutcome.state : BorrowOutcome → LibraryState
  | .outBanned s => s
  | .outDuplicateLoan s => s
  | .outLoanLimit s => s
  | .outUnavailable s => s
  | .outSuccess s => s

/-- The borrow decrement:
`UPDATE books SET available = available - 1 WHERE isbn IS ... AND available >= 1`. -/
def decrementBooks (books : List Book) (isbn : String) : List Book :=
  books.map (fun b =>
    if b.isbn = isbn ∧ 1 ≤ b.available then
      { b with available := b.available - 1 }
    else b)

/-- The loan row inserted by a successful borrow:
`(NULL, now, now + LOAN_PERIOD days, FALSE, userid, isbn)`. -/
def newLoanRow (cfg : Config) (userId : Nat) (isbn : String) (now : Int) : Loan :=
  { rdate := none, bdate := now,
    estrdate := now + cfg.loanPeriod * secondsPerDay,
    returned := false, userid := userId, isbn := isbn }

/-- The checks of the `borrow` command after the user row exists and the
ban check has passed: duplicate-loan count, active-loan count against
`MAX_LOANS`, then the single availability query
(`WHERE isbn IS ... AND available >= 1`) that stands for both a missing
book and an exhausted one.  On success, the matching rows with
`available >= 1` are decremented and a loan row is appended with
`bdate = now`, `estrdate = now + LOAN_PERIOD` days, `returned = FALSE`. -/
def borrowChecks (cfg : Config) (s : LibraryState) (userId : Nat) (isbn : String)
    (now : Int) : BorrowOutcome :=
  if (activePairLoans s userId isbn).length ≠ 0 then
    .outDuplicateLoan s
  else if cfg.maxLoans ≤ (activeLoans s userId).length then
    .outLoanLimit s
  else
    match findAvailableBook s isbn with
    | none => .outUnavailable s
    | some _ =>
        .outSuccess
          { s with
            books := decrementBooks s.books isbn,
            loans := s.loans ++ [newLoanRow cfg userId isbn now] }

/-- The `borrow` command.  The user row is looked up first; an unknown
user is inserted (with `banned = 0`) and proceeds, a known banned user is
refused before any other check. -/
def borrow (cfg : Config) (s : LibraryState) (userId : Nat) (userName : String)
    (isbn : String) (now : Int) : BorrowOutcome :=
  match findUser s userId with
  | none =>
      let s1 : LibraryState :=
        { s with users := s.users ++ [{ username := userName, userid := userId, banned := false }] }
      borrowChecks cfg s1 userId isbn now
  | some u =>
      if u.banned then .outBanned s
      else borrowChecks cfg s userId isbn now

/-- The `return` command: unconditionally
`UPDATE books SET available = available + 1 WHERE isbn IS ...` and
`UPDATE loans SET returned = TRUE, rdate = now WHERE isbn IS ... AND userid IS ...`.
There is no check that a matching active loan exists. -/
def returnBook (s : LibraryState) (isbn : String) (userId : Nat) (now : Int) :
    LibraryState :=
  { s with
    books := s.books.map (fun b =>
      if b.isbn = isbn then { b with available := b.available + 1 } else b),
    loans := s.loans.map (fun l =>
      if l.isbn = isbn ∧ l.userid = userId then
        { l with returned := true, rdate := some now }
      else l) }

/-- The `renew` command:
`UPDATE loans SET estrdate = now + days WHERE isbn IS ... AND userid IS ...`.
The filter does not mention `returned`. -/
def renew (s : LibraryState) (isbn : String) (userId : Nat) (days : Int)
    (now : Int) : LibraryState :=
  { s with
    loans := s.loans.map (fun l =>
      if l.isbn = isbn ∧ l.userid = userId then
        { l with estrdate := now + days * secondsPerDay }
      else l) }

/-- `UPDATE users SET banned = b WHERE userid IS ...` — shared body of the
`ban` and `unban` commands.  An unknown userid matches no row and the
command still reports success. -/
def setBanned (s : LibraryState) (userId : Nat) (b : Bool) : LibraryState :=
  { s with
    users := s.users.map (fun u =>
      if u.userid = userId then { u with banned := b } else u) }

/-- The `ban` command. -/
def ban (s : LibraryState) (userId : Nat) : LibraryState :=
  setBanned s userId true

/-- The `unban` command. -/
def unban (s : LibraryState) (userId : Nat) : LibraryState :=
  setBanned s userId false

/-- The `add` command:
`UPDATE books SET available = available + count WHERE isbn IS ...`,
with `count` any integer and no clamp. -/
def add (s : LibraryState) (isbn : String) (count : Int) : LibraryState :=
  { s with
    books := s.books.map (fun b =>
      if b.isbn = isbn then { b with available := b.available + count } else b) }

/-- The `remove` command: it invokes `add` with `count = -abs(count)`. -/
def remove (s : LibraryState) (isbn : String) (count : Int) : LibraryState :=
  add s isbn (-(count.natAbs : Int))

/-- The `delete` command:
`UPDATE loans SET returned = TRUE, rdate = now WHERE isbn IS ...` (no
`returned` filter, no availability change) then
`DELETE FROM books WHERE isbn IS ...`. -/
def deleteBook (s : LibraryState) (isbn : String) (now : Int) : LibraryState :=
  { books := s.books.filter (fun b => !(b.isbn == isbn)),
    users := s.users,
    loans := s.loans.map (fun l =>
      if l.isbn = isbn then { l with returned := true, rdate := some now } else l) }

/-- The rounding rule of the `due` command:
`remaining = (estrdate - now).days + 1`, where Python `timedelta.days`
is floor division of the difference by one day. -/
def daysRemaining (estrdate now : Int) : Int :=
  Int.fdiv (estrdate - now) secondsPerDay + 1

/-- The `due` command's data: for each active loan of the user, its isbn
and the computed days remaining. -/
def due (s : LibraryState) (userId : Nat) (now : Int) : List (String × Int) :=
  (activeLoans s userId).map (fun l => (l.isbn, daysRemaining l.estrdate now))

/-- The overdue test of `format_book_records`: `remaining <= 0`. -/
def isOverdueDisplay (remaining : Int) : Bool :=
  remaining ≤ 0

/-- One ledger transaction, as issued by the bot commands the claims
range over. -/
inductive Op where
  | opBorrow (userId : Nat) (userName : String) (isbn : String) (now : Int)
  | opReturn (isbn : String) (userId : Nat) (now : Int)
  | opAdd (isbn : String) (count : Int)
  | opRemove (isbn : String) (count : Int)
  | opRenew (isbn : String) (userId : Nat) (days : Int) (now : Int)
  | opBan (userId : Nat)
  | opUnban (userId : Nat)
  | opDelete (isbn : String) (now : Int)
deriving Repr, DecidableEq

/-- Apply one transaction to the database. -/
def step (cfg : Config) (s : LibraryState) : Op → LibraryState
  | .opBorrow userId userName isbn now => (borrow cfg s userId userName isbn now).state
  | .opReturn isbn userId now => returnBook s isbn userId now
  | .opAdd isbn count => add s isbn count
  | .opRemove isbn count => remove s isbn count
  | .opRenew isbn userId days now => renew s isbn userId days now
  | .opBan userId => ban s userId
  | .opUnban userId => unban s userId
  | .opDelete isbn now => deleteBook s isbn now

/-- Apply a sequence of transactions in order. -/
def run (cfg : Config) (s : LibraryState) : List Op → LibraryState
  | [] => s
  | op :: ops => run cfg (step cfg s op) ops

/-! ## Concrete states used by the counterexamples and witnesses -/

/-- A configuration with a 14-day loan period and a 2-loan ceiling. -/
def cfg0 : Config := { loanPeriod := 14, maxLoans := 2 }

/-- A single-copy book record. -/
def duneBook : Book :=
  { title := "Dune", binding := "paperback", authors := "Frank Herbert",
    series := none, available := 0, isbn := "9780441013593", location := none }

/-- A known, unbanned user. -/
def aliceUser : User := { username := "alice", userid := 42, banned := false }

/-- Catalog with one exhausted copy of `duneBook`, one known user, no loans. -/
def exhaustedState : LibraryState :=
  { books := [duneBook], users := [aliceUser], loans := [] }

/-- Catalog with two copies in stock, one known user, no loans. -/
def stockedState : LibraryState :=
  { books := [{ duneBook with available := 2 }], users := [aliceUser], loans := [] }

/-- Catalog with no books at all, one known user, no loans. -/
def emptyCatalogState : LibraryState :=
  { books := [], users := [aliceUser], loans := [] }

/-- A loan that has already been returned (`returned = TRUE`, `rdate` set). -/
def closedLoan : Loan :=
  { rdate := some 50, bdate := 0, estrdate := 100, returned := true,
    userid := 42, isbn := "9780441013593" }

/-- State holding only the already-returned `closedLoan`. -/
def closedLoanState : LibraryState :=
  { books := [{ duneBook with available := 1 }], users := [aliceUser],
    loans := [closedLoan] }

/-- State with no users at all. -/
def noUsersState : LibraryState :=
  { books := [duneBook], users := [], loans := [] }

/-- Every book row has a non-negative availability counter. -/
def booksNonneg (s : LibraryState) : Prop :=
  ∀ b ∈ s.books, 0 ≤ b.available

instance (s : LibraryState) : Decidable (booksNonneg s) := by
  unfold booksNonneg; infer_instance

/-- C1 counterexample: starting from a state whose only book has
`available = 0`, the single AdjustCopies transaction `add(isbn, -1)`
drives `available` to `-1`, so availability is negative after a
transaction of the claimed class. -/
theorem c1_counterexample :
    booksNonneg exhaustedState ∧
    ¬ booksNonneg (run cfg0 exhaustedState [Op.opAdd "9780441013593" (-1)]) ∧
    (run cfg0 exhaustedState [Op.opAdd "9780441013593" (-1)]).books.map
      Book.available = [-1] := by
  refine ⟨?_, ?_, ?_⟩ <;> decide

/-- C3 counterexample: in a state with no loan at all for
`(userId 42, isbn 9780441013593)`, the `return` command neither fails nor
leaves the state unchanged: it increments the book's availability from 2
to 3. -/
theorem c3_counterexample :
    activePairLoans stockedState 42 "9780441013593" = [] ∧
    returnBook stockedState "9780441013593" 42 1000 ≠ stockedState ∧
    (returnBook stockedState "9780441013593" 42 1000).books.map
      Book.available = [3] := by
  refine ⟨?_, ?_, ?_⟩ <;> decide

/-- C4 counterexample: an ISBN absent from the catalog and an ISBN present
with `available = 0` produce the very same failure (the one availability
query of `borrow` returns no row in both cases), so the code does not
report a distinct BookNotFound for the absent ISBN. -/
theorem c4_counterexample :
    borrow cfg0 emptyCatalogState 42 "alice" "9780441013593" 0 =
      BorrowOutcome.outUnavailable emptyCatalogState ∧
    borrow cfg0 exhaustedState 42 "alice" "9780441013593" 0 =
      BorrowOutcome.outUnavailable exhaustedState := by
  refine ⟨?_, ?_⟩ <;> decide

/-- C6 counterexample: removing 5 copies from a book with 2 available
leaves `available = -3`: the result is not clamped to 0 and is negative. -/
theorem c6_counterexample :
    (remove stockedState "9780441013593" 5).books.map Book.available = [-3] ∧
    (remove stockedState "9780441013593" 5).books.map Book.available ≠ [0] := by
  refine ⟨?_, ?_⟩ <;> decide

/-- C7 counterexample: `renew` on a loan that already has
`returned = TRUE` overwrites its due date (`estrdate` moves from 100 to
`1000 + 7` days), and `return` on it overwrites its `rdate` (from 50 to
2000), so a returned loan is not terminal for those fields. -/
theorem c7_counterexample :
    closedLoanState.loans.map Loan.returned = [true] ∧
    (renew closedLoanState "9780441013593" 42 7 1000).loans.map
      Loan.estrdate = [1000 + 7 * 86400] ∧
    closedLoanState.loans.map Loan.estrdate = [100] ∧
    (returnBook closedLoanState "9780441013593" 42 2000).loans.map
      Loan.rdate = [some 2000] ∧
    closedLoanState.loans.map Loan.rdate = [some 50] := by
  refine ⟨?_, ?_, ?_, ?_, ?_⟩ <;> decide

/-- C8 counterexample: `ban` and `unban` on a userid that has never been
seen complete as silent no-ops (the UPDATE matches no row and the command
reports success); no NotFound failure exists in the code. -/
theorem c8_counterexample :
    findUser noUsersState 42 = none ∧
    ban noUsersState 42 = noUsersState ∧
    unban noUsersState 42 = noUsersState := by
  refine ⟨?_, ?_, ?_⟩ <;> decide

/-! ## C1: availability under Borrow and Return -/

/-- The borrow checks keep every availability counter non-negative: the
only write is guarded by `available >= 1`. -/
theorem booksNonneg_borrowChecks (cfg : Config) (s : LibraryState) (userId : Nat)
    (isbn : String) (now : Int) (h : booksNonneg s) :
    booksNonneg ((borrowChecks cfg s userId isbn now).state) := by
  unfold borrowChecks
  split_ifs with h1 h2
  · exact h
  · exact h
  · cases hfa : findAvailableBook s isbn with
    | none => simp only [hfa]; exact h
    | some bk =>
        simp only [hfa, BorrowOutcome.state]
        intro b hb
        simp only [decrementBooks, List.mem_map] at hb
        obtain ⟨a, ha, rfl⟩ := hb
        have hnn := h a ha
        by_cases hcond : a.isbn = isbn ∧ 1 ≤ a.available
        · simp only [if_pos hcond]
          omega
        · simp only [if_neg hcond]
          exact hnn

/-- The `borrow` command keeps every availability counter non-negative. -/
theorem booksNonneg_borrow (cfg : Config) (s : LibraryState) (userId : Nat)
    (userName : String) (isbn : String) (now : Int) (h : booksNonneg s) :
    booksNonneg ((borrow cfg s userId userName isbn now).state) := by
  unfold borrow
  cases hfu : findUser s userId with
  | none => exact booksNonneg_borrowChecks cfg _ userId isbn now h
  | some u =>
      by_cases hb : u.banned
      · simp only [hb, if_pos]; exact h
      · simp only [hb, if_neg, Bool.false_eq_true, not_false_iff]
        exact booksNonneg_borrowChecks cfg s userId isbn now h

/-- The `return` command keeps every availability counter non-negative
(it only increments). -/
theorem booksNonneg_returnBook (s : LibraryState) (isbn : String) (userId : Nat)
    (now : Int) (h : booksNonneg s) :
    booksNonneg (returnBook s isbn userId now) := by
  intro b hb
  simp only [returnBook, List.mem_map] at hb
  obtain ⟨a, ha, rfl⟩ := hb
  have hnn := h a ha
  by_cases hcond : a.isbn = isbn
  · simp only [if_pos hcond]; omega
  · simp only [if_neg hcond]; exact hnn

/-- Membership of a transaction in the Borrow/Return class of C1. -/
def Op.isBorrowOrReturn : Op → Bool
  | .opBorrow _ _ _ _ => true
  | .opReturn _ _ _ => true
  | _ => false

/-- C1 (amended): for every sequence of Borrow and Return transactions on
a state whose availability counters are non-negative, they stay
non-negative after every transaction.  (The original claim also ranged
over AdjustCopies; `c1_counterexample` shows a single `add` breaks it.) -/
theorem c1_amended (cfg : Config) :
    ∀ (ops : List Op) (s : LibraryState),
      (∀ op ∈ ops, op.isBorrowOrReturn = true) →
      booksNonneg s → booksNonneg (run cfg s ops) := by
  intro ops
  induction ops with
  | nil => intro s _ hs; exact hs
  | cons op ops ih =>
      intro s hops hs
      have hop : op.isBorrowOrReturn = true := hops op (List.mem_cons_self op ops)
      have hrest : ∀ o ∈ ops, o.isBorrowOrReturn = true :=
        fun o ho => hops o (List.mem_cons_of_mem op ho)
      have hstep : booksNonneg (step cfg s op) := by
        cases op with
        | opBorrow userId userName isbn now =>
            exact booksNonneg_borrow cfg s userId userName isbn now hs
        | opReturn isbn userId now =>
            exact booksNonneg_returnBook s isbn userId now hs
        | opAdd isbn count => simp [Op.isBorrowOrReturn] at hop
        | opRemove isbn count => simp [Op.isBorrowOrReturn] at hop
        | opRenew isbn userId days now => simp [Op.isBorrowOrReturn] at hop
        | opBan userId => simp [Op.isBorrowOrReturn] at hop
        | opUnban userId => simp [Op.isBorrowOrReturn] at hop
        | opDelete isbn now => simp [Op.isBorrowOrReturn] at hop
      simpa only [run] using ih (step cfg s op) hrest hstep

/-- Witness for `c1_amended`: a concrete borrow-then-return run from a
stocked state keeps counters non-negative. -/
theorem c1_amended_witness :
    booksNonneg (run cfg0 stockedState
      [Op.opBorrow 42 "alice" "9780441013593" 0,
       Op.opReturn "9780441013593" 42 500]) :=
  c1_amended cfg0
    [Op.opBorrow 42 "alice" "9780441013593" 0,
     Op.opReturn "9780441013593" 42 500]
    stockedState (by decide) (by decide)

/-! ## C2: at most one active loan per (userId, isbn) -/

/-- At most one loan row with `returned = FALSE` exists per
`(userId, isbn)` pair. -/
def noDupActive (s : LibraryState) : Prop :=
  ∀ userId isbn, (activePairLoans s userId isbn).length ≤ 1

/-- A rewrite of loan rows that never turns a row into a match it was not
already cannot grow a filtered count. -/
theorem length_filter_map_le (f : Loan → Loan) (p : Loan → Bool) (L : List Loan)
    (hf : ∀ l ∈ L, p (f l) = true → p l = true) :
    ((L.map f).filter p).length ≤ (L.filter p).length := by
  rw [← List.countP_eq_length_filter, ← List.countP_eq_length_filter,
    List.countP_map]
  exact List.countP_mono_left hf

/-- The `return` command only closes loans, so it cannot create a second
active loan for a pair. -/
theorem noDupActive_returnBook (s : LibraryState) (isbn : String) (userId : Nat)
    (now : Int) (h : noDupActive s) : noDupActive (returnBook s isbn userId now) := by
  intro uu ii
  refine le_trans ?_ (h uu ii)
  unfold activePairLoans returnBook
  apply length_filter_map_le
  intro l _ hpl
  by_cases hc : l.isbn = isbn ∧ l.userid = userId
  · rw [if_pos hc] at hpl
    simp [isActivePair] at hpl
  · rwa [if_neg hc] at hpl

/-- The `renew` command only rewrites due dates, leaving the active
status of every row unchanged. -/
theorem noDupActive_renew (s : LibraryState) (isbn : String) (userId : Nat)
    (days now : Int) (h : noDupActive s) :
    noDupActive (renew s isbn userId days now) := by
  intro uu ii
  refine le_trans ?_ (h uu ii)
  unfold activePairLoans renew
  apply length_filter_map_le
  intro l _ hpl
  by_cases hc : l.isbn = isbn ∧ l.userid = userId
  · rw [if_pos hc] at hpl
    exact hpl
  · rwa [if_neg hc] at hpl

/-- The `delete` command only closes loans. -/
theorem noDupActive_deleteBook (s : LibraryState) (isbn : String) (now : Int)
    (h : noDupActive s) : noDupActive (deleteBook s isbn now) := by
  intro uu ii
  refine le_trans ?_ (h uu ii)
  unfold activePairLoans deleteBook
  apply length_filter_map_le
  intro l _ hpl
  by_cases hc : l.isbn = isbn
  · rw [if_pos hc] at hpl
    simp [isActivePair] at hpl
  · rwa [if_neg hc] at hpl

/-- The borrow checks insert a loan for `(userId, isbn)` only after the
duplicate-loan query returned no row, so every pair still has at most one
active loan afterwards. -/
theorem noDupActive_borrowChecks (cfg : Config) (s : LibraryState) (userId : Nat)
    (isbn : String) (now : Int) (h : noDupActive s) :
    noDupActive ((borrowChecks cfg s userId isbn now).state) := by
  unfold borrowChecks
  split_ifs with h1 h2
  · exact h
  · exact h
  · cases hfa : findAvailableBook s isbn with
    | none => simp only [hfa]; exact h
    | some bk =>
        simp only [hfa, BorrowOutcome.state]
        intro uu ii
        unfold activePairLoans
        rw [List.filter_append, List.length_append]
        by_cases hui : uu = userId ∧ ii = isbn
        · obtain ⟨rfl, rfl⟩ := hui
          have h0 : (List.filter (isActivePair uu ii) s.loans).length = 0 := by
            have h0a := not_ne_iff.mp h1
            simpa [activePairLoans] using h0a
          rw [h0]
          simp [isActivePair, newLoanRow]
        · rw [not_and_or] at hui
          have hnl : (List.filter (isActivePair uu ii)
              [newLoanRow cfg userId isbn now]).length = 0 := by
            rcases hui with hne | hne
            · have hb2 : (userId == uu) = false :=
                beq_eq_false_iff_ne.mpr (fun hx => hne hx.symm)
              simp [isActivePair, newLoanRow, hb2]
            · have hb2 : (isbn == ii) = false :=
                beq_eq_false_iff_ne.mpr (fun hx => hne hx.symm)
              simp [isActivePair, newLoanRow, hb2]
          rw [hnl]
          simpa [activePairLoans] using h uu ii

/-- The full `borrow` command preserves the pair-uniqueness invariant. -/
theorem noDupActive_borrow (cfg : Config) (s : LibraryState) (userId : Nat)
    (userName : String) (isbn : String) (now : Int) (h : noDupActive s) :
    noDupActive ((borrow cfg s userId userName isbn now).state) := by
  unfold borrow
  cases hfu : findUser s userId with
  | none => exact noDupActive_borrowChecks cfg _ userId isbn now h
  | some u =>
      by_cases hb : u.banned
      · simp only [hb, if_pos]; exact h
      · simp only [hb, Bool.false_eq_true, if_neg, not_false_iff]
        exact noDupActive_borrowChecks cfg s userId isbn now h

/-- When the duplicate-loan query returns a row, the borrow checks stop
with the duplicate-loan refusal. -/
theorem borrowChecks_duplicate (cfg : Config) (s : LibraryState) (userId : Nat)
    (isbn : String) (now : Int)
    (hne : activePairLoans s userId isbn ≠ []) :
    borrowChecks cfg s userId isbn now = BorrowOutcome.outDuplicateLoan s := by
  unfold borrowChecks
  rw [if_pos (fun h0 => hne (List.length_eq_zero.mp h0))]

/-- Whether a `BorrowOutcome` is the duplicate-loan refusal. -/
def BorrowOutcome.isDuplicateLoan : BorrowOutcome → Bool
  | .outDuplicateLoan _ => true
  | _ => false

/-- Every single transaction preserves the pair-uniqueness invariant. -/
theorem noDupActive_step (cfg : Config) (s : LibraryState) (op : Op)
    (h : noDupActive s) : noDupActive (step cfg s op) := by
  cases op with
  | opBorrow userId userName isbn now =>
      exact noDupActive_borrow cfg s userId userName isbn now h
  | opReturn isbn userId now => exact noDupActive_returnBook s isbn userId now h
  | opAdd isbn count => exact h
  | opRemove isbn count => exact h
  | opRenew isbn userId days now => exact noDupActive_renew s isbn userId days now h
  | opBan userId => exact h
  | opUnban userId => exact h
  | opDelete isbn now => exact noDupActive_deleteBook s isbn now h

/-- Every sequence of transactions preserves the pair-uniqueness
invariant. -/
theorem noDupActive_run (cfg : Config) :
    ∀ (ops : List Op) (s : LibraryState),
      noDupActive s → noDupActive (run cfg s ops) := by
  intro ops
  induction ops with
  | nil => intro s hs; exact hs
  | cons op ops ih =>
      intro s hs
      simpa only [run] using ih (step cfg s op) (noDupActive_step cfg s op hs)

/-- C2: starting from a state with at most one active loan per
`(userId, isbn)` pair, the invariant holds again after every transaction
and after every sequence of transactions, and `borrow` by a non-banned
(or unknown) user refuses with the duplicate-loan failure whenever an
active loan for the pair already exists. -/
theorem c2_no_duplicate_active (cfg : Config) (s : LibraryState)
    (h : noDupActive s) :
    (∀ op, noDupActive (step cfg s op)) ∧
    (∀ ops : List Op, noDupActive (run cfg s ops)) ∧
    ∀ userId userName isbn now,
      (∀ u, findUser s userId = some u → u.banned = false) →
      activePairLoans s userId isbn ≠ [] →
      (borrow cfg s userId userName isbn now).isDuplicateLoan = true := by
  refine ⟨fun op => noDupActive_step cfg s op h,
    fun ops => noDupActive_run cfg ops s h, ?_⟩
  intro userId userName isbn now hnb hne
  unfold borrow
  cases hfu : findUser s userId with
  | none =>
      show (borrowChecks cfg
        { s with users := s.users ++
            [{ username := userName, userid := userId, banned := false }] }
        userId isbn now).isDuplicateLoan = true
      have hne1 : activePairLoans
          { s with users := s.users ++
              [{ username := userName, userid := userId, banned := false }] }
          userId isbn ≠ [] := hne
      rw [borrowChecks_duplicate cfg _ userId isbn now hne1]
      rfl
  | some u =>
      have hb := hnb u hfu
      show (if u.banned = true then BorrowOutcome.outBanned s
        else borrowChecks cfg s userId isbn now).isDuplicateLoan = true
      rw [if_neg (by simp [hb]), borrowChecks_duplicate cfg s userId isbn now hne]
      rfl

/-- A loan currently out to user 42. -/
def openLoan : Loan :=
  { rdate := none, bdate := 0, estrdate := 14 * 86400, returned := false,
    userid := 42, isbn := "9780441013593" }

/-- State in which user 42 already holds `duneBook` on an active loan. -/
def activeLoanState : LibraryState :=
  { books := [{ duneBook with available := 1 }], users := [aliceUser],
    loans := [openLoan] }

/-- Witness for `c2_no_duplicate_active`: from a state with one active
loan, a `return` preserves the invariant and a repeated `borrow` of the
same pair is refused as a duplicate. -/
theorem c2_witness :
    noDupActive (step cfg0 activeLoanState (Op.opReturn "9780441013593" 42 500)) ∧
    (borrow cfg0 activeLoanState 42 "alice" "9780441013593" 0).isDuplicateLoan
      = true := by
  have hnd : noDupActive activeLoanState := by
    intro uu ii
    exact le_trans (List.length_filter_le _ _) (by decide)
  refine ⟨(c2_no_duplicate_active cfg0 activeLoanState hnd).1
      (Op.opReturn "9780441013593" 42 500),
    (c2_no_duplicate_active cfg0 activeLoanState hnd).2.2
      42 "alice" "9780441013593" 0 ?_ ?_⟩
  · intro u hu
    have hfa : findUser activeLoanState 42 = some aliceUser := rfl
    rw [hfa] at hu
    cases hu
    rfl
  · decide

/-! ## C3: behavior of `return` without an active loan -/

/-- C3 (amended): `return` has no failure path and no active-loan guard:
even when no active loan exists for `(userId, isbn)`, it still adds 1 to
the availability of every book whose isbn matches (leaving the other
books alone), and it stamps `returned = TRUE, rdate = now` on every loan
row for the pair while leaving every other row's flags alone — and under
the no-active-loan hypothesis every such pair row was already closed, so
a blind or duplicate return overwrites the `rdate` of closed loans.  The
state is mutated rather than kept unchanged. -/
theorem c3_amended (s : LibraryState) (isbn : String) (userId : Nat) (now : Int)
    (hna : activePairLoans s userId isbn = []) :
    (returnBook s isbn userId now).books.map Book.available
      = s.books.map (fun b =>
          if b.isbn = isbn then b.available + 1 else b.available) ∧
    (returnBook s isbn userId now).loans.map (fun l => (l.returned, l.rdate))
      = s.loans.map (fun l =>
          if l.isbn = isbn ∧ l.userid = userId then (true, some now)
          else (l.returned, l.rdate)) ∧
    ∀ l ∈ s.loans, l.isbn = isbn → l.userid = userId → l.returned = true := by
  refine ⟨?_, ?_, ?_⟩
  · unfold returnBook
    rw [List.map_map]
    apply List.map_congr_left
    intro b _
    by_cases hc : b.isbn = isbn
    · simp [hc, Function.comp]
    · simp [hc, Function.comp]
  · unfold returnBook
    rw [List.map_map]
    apply List.map_congr_left
    intro l _
    by_cases hc : l.isbn = isbn ∧ l.userid = userId
    · simp [hc, Function.comp]
    · simp [hc, Function.comp]
  · intro l hl hisbn huid
    have hna2 : s.loans.filter (isActivePair userId isbn) = [] := hna
    have hnp := List.filter_eq_nil_iff.mp hna2 l hl
    cases hret : l.returned with
    | true => rfl
    | false =>
        exfalso
        apply hnp
        simp [isActivePair, huid, hisbn, hret]

/-- Witness for `c3_amended`: the pair's only loan is already returned,
so there is no active loan; `return` still bumps the counter and
overwrites the closed loan's `rdate` with the new timestamp. -/
theorem c3_amended_witness :
    (returnBook closedLoanState "9780441013593" 42 2000).books.map
        Book.available
      = closedLoanState.books.map (fun b =>
          if b.isbn = "9780441013593" then b.available + 1 else b.available) ∧
    (returnBook closedLoanState "9780441013593" 42 2000).loans.map
        (fun l => (l.returned, l.rdate))
      = closedLoanState.loans.map (fun l =>
          if l.isbn = "9780441013593" ∧ l.userid = 42 then (true, some 2000)
          else (l.returned, l.rdate)) :=
  ⟨(c3_amended closedLoanState "9780441013593" 42 2000 (by decide)).1,
    (c3_amended closedLoanState "9780441013593" 42 2000 (by decide)).2.1⟩

/-! ## C4: the order of the borrow gates -/

/-- Whether a `BorrowOutcome` is the loan-limit refusal. -/
def BorrowOutcome.isLoanLimit : BorrowOutcome → Bool
  | .outLoanLimit _ => true
  | _ => false

/-- Whether a `BorrowOutcome` is the availability refusal (the single
failure covering both an absent ISBN and zero copies). -/
def BorrowOutcome.isUnavailable : BorrowOutcome → Bool
  | .outUnavailable _ => true
  | _ => false

/-- When no duplicate exists but the user is at the loan ceiling, the
borrow checks stop with the loan-limit refusal. -/
theorem borrowChecks_limit (cfg : Config) (s : LibraryState) (userId : Nat)
    (isbn : String) (now : Int)
    (h0 : activePairLoans s userId isbn = [])
    (hlim : cfg.maxLoans ≤ (activeLoans s userId).length) :
    borrowChecks cfg s userId isbn now = BorrowOutcome.outLoanLimit s := by
  unfold borrowChecks
  rw [if_neg (by simp [h0]), if_pos hlim]

/-- When no duplicate exists, the user is under the ceiling, and the
availability query returns no row (absent ISBN or no copies), the borrow
checks stop with the availability refusal. -/
theorem borrowChecks_unavailable (cfg : Config) (s : LibraryState) (userId : Nat)
    (isbn : String) (now : Int)
    (h0 : activePairLoans s userId isbn = [])
    (hlim : (activeLoans s userId).length < cfg.maxLoans)
    (hfa : findAvailableBook s isbn = none) :
    borrowChecks cfg s userId isbn now = BorrowOutcome.outUnavailable s := by
  unfold borrowChecks
  rw [if_neg (by simp [h0]), if_neg (by omega), hfa]

/-- C4 (amended): the borrow gates run in the order banned, duplicate
loan, loan limit, availability, and short-circuit at the first failure;
but the last gate is a single query for a row with the given ISBN and
`available >= 1`, so an absent ISBN and an exhausted book produce the one
availability refusal — there is no distinct BookNotFound failure
(`c4_counterexample`). -/
theorem c4_amended (cfg : Config) (s : LibraryState) (userId : Nat)
    (userName : String) (isbn : String) (now : Int) :
    (∀ u, findUser s userId = some u → u.banned = true →
        borrow cfg s userId userName isbn now = BorrowOutcome.outBanned s) ∧
    ((∀ u, findUser s userId = some u → u.banned = false) →
      (activePairLoans s userId isbn ≠ [] →
          (borrow cfg s userId userName isbn now).isDuplicateLoan = true) ∧
      (activePairLoans s userId isbn = [] →
          cfg.maxLoans ≤ (activeLoans s userId).length →
          (borrow cfg s userId userName isbn now).isLoanLimit = true) ∧
      (activePairLoans s userId isbn = [] →
          (activeLoans s userId).length < cfg.maxLoans →
          findAvailableBook s isbn = none →
          (borrow cfg s userId userName isbn now).isUnavailable = true)) := by
  constructor
  · intro u hu hb
    unfold borrow
    cases hfu : findUser s userId with
    | none => rw [hfu] at hu; cases hu
    | some u0 =>
        rw [hfu] at hu
        cases hu
        show (if u.banned = true then BorrowOutcome.outBanned s
          else borrowChecks cfg s userId isbn now) = BorrowOutcome.outBanned s
        rw [if_pos hb]
  · intro hnb
    refine ⟨?_, ?_, ?_⟩
    · intro hne
      unfold borrow
      cases hfu : findUser s userId with
      | none =>
          show (borrowChecks cfg
            { s with users := s.users ++
                [{ username := userName, userid := userId, banned := false }] }
            userId isbn now).isDuplicateLoan = true
          have hne1 : activePairLoans
              { s with users := s.users ++
                  [{ username := userName, userid := userId, banned := false }] }
              userId isbn ≠ [] := hne
          rw [borrowChecks_duplicate cfg _ userId isbn now hne1]
          rfl
      | some u =>
          have hb := hnb u hfu
          show (if u.banned = true then BorrowOutcome.outBanned s
            else borrowChecks cfg s userId isbn now).isDuplicateLoan = true
          rw [if_neg (by simp [hb]),
            borrowChecks_duplicate cfg s userId isbn now hne]
          rfl
    · intro h0 hlim
      unfold borrow
      cases hfu : findUser s userId with
      | none =>
          show (borrowChecks cfg
            { s with users := s.users ++
                [{ username := userName, userid := userId, banned := false }] }
            userId isbn now).isLoanLimit = true
          have h01 : activePairLoans
              { s with users := s.users ++
                  [{ username := userName, userid := userId, banned := false }] }
              userId isbn = [] := h0
          have hlim1 : cfg.maxLoans ≤ (activeLoans
              { s with users := s.users ++
                  [{ username := userName, userid := userId, banned := false }] }
              userId).length := hlim
          rw [borrowChecks_limit cfg _ userId isbn now h01 hlim1]
          rfl
      | some u =>
          have hb := hnb u hfu
          show (if u.banned = true then BorrowOutcome.outBanned s
            else borrowChecks cfg s userId isbn now).isLoanLimit = true
          rw [if_neg (by simp [hb]),
            borrowChecks_limit cfg s userId isbn now h0 hlim]
          rfl
    · intro h0 hlim hfa
      unfold borrow
      cases hfu : findUser s userId with
      | none =>
          show (borrowChecks cfg
            { s with users := s.users ++
                [{ username := userName, userid := userId, banned := false }] }
            userId isbn now).isUnavailable = true
          have h01 : activePairLoans
              { s with users := s.users ++
                  [{ username := userName, userid := userId, banned := false }] }
              userId isbn = [] := h0
          have hlim1 : (activeLoans
              { s with users := s.users ++
                  [{ username := userName, userid := userId, banned := false }] }
              userId).length < cfg.maxLoans := hlim
          have hfa1 : findAvailableBook
              { s with users := s.users ++
                  [{ username := userName, userid := userId, banned := false }] }
              isbn = none := hfa
          rw [borrowChecks_unavailable cfg _ userId isbn now h01 hlim1 hfa1]
          rfl
      | some u =>
          have hb := hnb u hfu
          show (if u.banned = true then BorrowOutcome.outBanned s
            else borrowChecks cfg s userId isbn now).isUnavailable = true
          rw [if_neg (by simp [hb]),
            borrowChecks_unavailable cfg s userId isbn now h0 hlim hfa]
          rfl

/-- A banned user. -/
def bobUser : User := { username := "bob", userid := 7, banned := true }

/-- State whose only user is banned. -/
def bannedUserState : LibraryState :=
  { books := [duneBook], users := [bobUser], loans := [] }

/-- State in which user 42 already holds two active loans (the ceiling of
`cfg0`). -/
def twoLoansState : LibraryState :=
  { books := [{ duneBook with available := 3 }], users := [aliceUser],
    loans := [{ openLoan with isbn := "9780000000001" },
              { openLoan with isbn := "9780000000002" }] }

/-- Witness for `c4_amended`: each gate observed at a concrete state —
banned user refused, duplicate pair refused, loan ceiling refused, and
absent ISBN refused by the availability gate. -/
theorem c4_amended_witness :
    borrow cfg0 bannedUserState 7 "bob" "9780441013593" 0
      = BorrowOutcome.outBanned bannedUserState ∧
    (borrow cfg0 activeLoanState 42 "alice" "9780441013593" 5).isDuplicateLoan
      = true ∧
    (borrow cfg0 twoLoansState 42 "alice" "9780441013593" 0).isLoanLimit
      = true ∧
    (borrow cfg0 emptyCatalogState 42 "alice" "9780441013593" 0).isUnavailable
      = true := by
  have halice : ∀ (s : LibraryState), findUser s 42 = some aliceUser →
      ∀ u, findUser s 42 = some u → u.banned = false := by
    intro s hs u hu
    rw [hs] at hu
    cases hu
    rfl
  refine ⟨?_, ?_, ?_, ?_⟩
  · exact (c4_amended cfg0 bannedUserState 7 "bob" "9780441013593" 0).1
      bobUser rfl rfl
  · exact ((c4_amended cfg0 activeLoanState 42 "alice" "9780441013593" 5).2
      (halice activeLoanState rfl)).1 (by decide)
  · exact (((c4_amended cfg0 twoLoansState 42 "alice" "9780441013593" 0).2
      (halice twoLoansState rfl)).2).1 (by decide) (by decide)
  · exact (((c4_amended cfg0 emptyCatalogState 42 "alice" "9780441013593" 0).2
      (halice emptyCatalogState rfl)).2).2 (by decide) (by decide) (by decide)

/-! ## C5: effect of a successful borrow -/

/-- Total availability recorded for an ISBN (the sum over all rows with
that isbn; with the primary key there is at most one such row). -/
def availability (s : LibraryState) (isbn : String) : Int :=
  ((s.books.filter (fun b => b.isbn == isbn)).map Book.available).sum

/-- Under the primary-key uniqueness of `isbn`, the borrow decrement
lowers the total availability of the borrowed ISBN by exactly 1 when the
availability query found a row. -/
theorem sum_decrementBooks (isbn : String) (bk : Book) :
    ∀ L : List Book, L.Pairwise (fun a b => a.isbn ≠ b.isbn) →
      L.find? (fun b => b.isbn == isbn && 1 ≤ b.available) = some bk →
      (((decrementBooks L isbn).filter (fun b => b.isbn == isbn)).map
          Book.available).sum
        = ((L.filter (fun b => b.isbn == isbn)).map Book.available).sum - 1 := by
  intro L
  induction L with
  | nil => intro _ hfa; simp at hfa
  | cons b L ih =>
      intro hpw hfa
      rw [List.pairwise_cons] at hpw
      obtain ⟨hb, hpwL⟩ := hpw
      by_cases hmb : (b.isbn == isbn && decide (1 ≤ b.available)) = true
      · have hisbn : b.isbn = isbn := by
          simp only [Bool.and_eq_true, beq_iff_eq, decide_eq_true_eq] at hmb
          exact hmb.1
        have havail : 1 ≤ b.available := by
          simp only [Bool.and_eq_true, beq_iff_eq, decide_eq_true_eq] at hmb
          exact hmb.2
        have hLnil : L.filter (fun c => c.isbn == isbn) = [] := by
          rw [List.filter_eq_nil_iff]
          intro c hc
          simp only [beq_iff_eq]
          intro hcisbn
          exact (hb c hc) (by rw [hisbn, hcisbn])
        have hLnil2 : (decrementBooks L isbn).filter
            (fun c => c.isbn == isbn) = [] := by
          rw [List.filter_eq_nil_iff]
          intro c hc
          simp only [decrementBooks, List.mem_map] at hc
          obtain ⟨a, ha, rfl⟩ := hc
          have haisbn : ¬ a.isbn = isbn := fun hx => (hb a ha) (by rw [hisbn, hx])
          by_cases hcond : a.isbn = isbn ∧ 1 ≤ a.available
          · exact absurd hcond.1 haisbn
          · rw [if_neg hcond]
            simp only [beq_iff_eq]
            exact haisbn
        have hcond : b.isbn = isbn ∧ 1 ≤ b.available := ⟨hisbn, havail⟩
        simp only [decrementBooks, List.map_cons] at hLnil2 ⊢
        rw [if_pos hcond,
          List.filter_cons_of_pos (by simp [hisbn]),
          List.filter_cons_of_pos (by simp [hisbn]), hLnil, hLnil2]
        simp
      · have hfb : List.find? (fun b => b.isbn == isbn && 1 ≤ b.available)
            (b :: L) = List.find? (fun b => b.isbn == isbn && 1 ≤ b.available) L := by
          apply List.find?_cons_of_neg
          simpa using hmb
        rw [hfb] at hfa
        have hbkmem := List.mem_of_find?_eq_some hfa
        have hbkpred := List.find?_some hfa
        have hbkisbn : bk.isbn = isbn := by
          simp only [Bool.and_eq_true, beq_iff_eq, decide_eq_true_eq] at hbkpred
          exact hbkpred.1
        have hbisbn : ¬ b.isbn = isbn := by
          intro hEq
          exact (hb bk hbkmem) (by rw [hEq, hbkisbn])
        have hfbneg : ¬ (b.isbn = isbn ∧ 1 ≤ b.available) := fun hx => hbisbn hx.1
        simp only [decrementBooks, List.map_cons] at ih ⊢
        rw [if_neg hfbneg,
          List.filter_cons_of_neg (by simp [hbisbn]),
          List.filter_cons_of_neg (by simp [hbisbn])]
        exact ih hpwL hfa

/-- The borrow decrement leaves every other ISBN's rows untouched. -/
theorem filter_decrementBooks_other (isbn j : String) (hj : j ≠ isbn) :
    ∀ L : List Book, (decrementBooks L isbn).filter (fun b => b.isbn == j)
      = L.filter (fun b => b.isbn == j) := by
  intro L
  induction L with
  | nil => rfl
  | cons b L ih =>
      simp only [decrementBooks, List.map_cons] at ih ⊢
      by_cases hcond : b.isbn = isbn ∧ 1 ≤ b.available
      · have hbj : ¬ b.isbn = j := fun hx => hj (by rw [← hx, hcond.1])
        rw [if_pos hcond,
          List.filter_cons_of_neg (by simp [hbj]),
          List.filter_cons_of_neg (by simp [hbj])]
        exact ih
      · rw [if_neg hcond]
        by_cases hbj : b.isbn = j
        · rw [List.filter_cons_of_pos (by simp [hbj]),
            List.filter_cons_of_pos (by simp [hbj]), ih]
        · rw [List.filter_cons_of_neg (by simp [hbj]),
            List.filter_cons_of_neg (by simp [hbj])]
          exact ih

/-- When every gate passes, the borrow checks succeed with the decrement
and the new loan row. -/
theorem borrowChecks_success (cfg : Config) (s : LibraryState) (userId : Nat)
    (isbn : String) (now : Int) (bk : Book)
    (h0 : activePairLoans s userId isbn = [])
    (hlim : (activeLoans s userId).length < cfg.maxLoans)
    (hfa : findAvailableBook s isbn = some bk) :
    borrowChecks cfg s userId isbn now = BorrowOutcome.outSuccess
      { s with books := decrementBooks s.books isbn,
               loans := s.loans ++ [newLoanRow cfg userId isbn now] } := by
  unfold borrowChecks
  rw [if_neg (by simp [h0]), if_neg (by omega), hfa]

/-- C5: a successful borrow lowers the borrowed book's availability by
exactly 1, leaves every other ISBN's availability alone, and appends one
loan row with `bdate = now`, `estrdate = now + LOAN_PERIOD` days and
`returned = FALSE`.  (Uniqueness of the `isbn` primary key is assumed, as
enforced by the books table.) -/
theorem c5_borrow_success (cfg : Config) (s : LibraryState) (userId : Nat)
    (userName : String) (isbn : String) (now : Int) (bk : Book)
    (huniq : s.books.Pairwise (fun a b => a.isbn ≠ b.isbn))
    (hnb : ∀ u, findUser s userId = some u → u.banned = false)
    (hdup : activePairLoans s userId isbn = [])
    (hlim : (activeLoans s userId).length < cfg.maxLoans)
    (hfa : findAvailableBook s isbn = some bk) :
    ∃ s2, borrow cfg s userId userName isbn now = BorrowOutcome.outSuccess s2 ∧
      availability s2 isbn = availability s isbn - 1 ∧
      (∀ j, j ≠ isbn → availability s2 j = availability s j) ∧
      s2.loans = s.loans ++ [newLoanRow cfg userId isbn now] := by
  have hsum := sum_decrementBooks isbn bk s.books huniq hfa
  have hoth := fun j (hj : j ≠ isbn) => filter_decrementBooks_other isbn j hj s.books
  unfold borrow
  cases hfu : findUser s userId with
  | none =>
      refine ⟨{ s with
          users := s.users ++
            [{ username := userName, userid := userId, banned := false }],
          books := decrementBooks s.books isbn,
          loans := s.loans ++ [newLoanRow cfg userId isbn now] }, ?_, ?_, ?_, rfl⟩
      · show borrowChecks cfg
          { s with users := s.users ++
              [{ username := userName, userid := userId, banned := false }] }
          userId isbn now = _
        have h01 : activePairLoans
            { s with users := s.users ++
                [{ username := userName, userid := userId, banned := false }] }
            userId isbn = [] := hdup
        have hlim1 : (activeLoans
            { s with users := s.users ++
                [{ username := userName, userid := userId, banned := false }] }
            userId).length < cfg.maxLoans := hlim
        have hfa1 : findAvailableBook
            { s with users := s.users ++
                [{ username := userName, userid := userId, banned := false }] }
            isbn = some bk := hfa
        rw [borrowChecks_success cfg _ userId isbn now bk h01 hlim1 hfa1]
      · exact hsum
      · intro j hj
        show (((decrementBooks s.books isbn).filter
            (fun b => b.isbn == j)).map Book.available).sum = availability s j
        rw [hoth j hj]
        rfl
  | some u =>
      have hb := hnb u hfu
      refine ⟨{ s with
          books := decrementBooks s.books isbn,
          loans := s.loans ++ [newLoanRow cfg userId isbn now] }, ?_, ?_, ?_, rfl⟩
      · show (if u.banned = true then BorrowOutcome.outBanned s
          else borrowChecks cfg s userId isbn now) = _
        rw [if_neg (by simp [hb]),
          borrowChecks_success cfg s userId isbn now bk hdup hlim hfa]
      · exact hsum
      · intro j hj
        show (((decrementBooks s.books isbn).filter
            (fun b => b.isbn == j)).map Book.available).sum = availability s j
        rw [hoth j hj]
        rfl

/-- Witness for `c5_borrow_success`: user 42 borrows the stocked book. -/
theorem c5_borrow_success_witness :
    ∃ s2, borrow cfg0 stockedState 42 "alice" "9780441013593" 0
        = BorrowOutcome.outSuccess s2 ∧
      availability s2 "9780441013593"
        = availability stockedState "9780441013593" - 1 ∧
      (∀ j, j ≠ "9780441013593" →
        availability s2 j = availability stockedState j) ∧
      s2.loans = stockedState.loans ++ [newLoanRow cfg0 42 "9780441013593" 0] := by
  refine c5_borrow_success cfg0 stockedState 42 "alice" "9780441013593" 0
    { duneBook with available := 2 } (by decide) ?_ (by decide) (by decide)
    (by decide)
  intro u hu
  have hfa : findUser stockedState 42 = some aliceUser := rfl
  rw [hfa] at hu
  cases hu
  rfl

/-! ## C6 and C10: the copy-count commands -/

/-- C6 (amended): `add` moves the matching book's availability by exactly
`count` — any integer, with no final clamp — and `remove` forwards
`-abs(count)`, so a removal larger than the current availability drives
the counter negative (`c6_counterexample`) instead of clamping it to 0. -/
theorem c6_amended (s : LibraryState) (isbn : String) (count : Int) :
    (add s isbn count).books.map Book.available
      = s.books.map (fun b =>
          if b.isbn = isbn then b.available + count else b.available) ∧
    (remove s isbn count).books.map Book.available
      = s.books.map (fun b =>
          if b.isbn = isbn then b.available - (count.natAbs : Int)
          else b.available) := by
  constructor
  · unfold add
    rw [List.map_map]
    apply List.map_congr_left
    intro b _
    by_cases hc : b.isbn = isbn <;> simp [hc, Function.comp]
  · unfold remove add
    rw [List.map_map]
    apply List.map_congr_left
    intro b _
    by_cases hc : b.isbn = isbn <;> simp [hc, Function.comp, sub_eq_add_neg]

/-- C10: `remove` is `add` of `-abs(count)`, so whatever the sign of
`count` it subtracts `abs(count)` from the matching book, and row by row
no book's availability ever increases. -/
theorem c10_remove_never_increases (s : LibraryState) (isbn : String)
    (count : Int) :
    remove s isbn count = add s isbn (-(count.natAbs : Int)) ∧
    (remove s isbn count).books.map Book.available
      = s.books.map (fun b =>
          if b.isbn = isbn then b.available - (count.natAbs : Int)
          else b.available) ∧
    List.Forall₂ (fun before after => after ≤ before)
      (s.books.map Book.available)
      ((remove s isbn count).books.map Book.available) := by
  have hmap : (remove s isbn count).books.map Book.available
      = s.books.map (fun b =>
          if b.isbn = isbn then b.available - (count.natAbs : Int)
          else b.available) := by
    unfold remove add
    rw [List.map_map]
    apply List.map_congr_left
    intro b _
    by_cases hc : b.isbn = isbn <;> simp [hc, Function.comp, sub_eq_add_neg]
  refine ⟨rfl, hmap, ?_⟩
  rw [hmap, List.forall₂_map_right_iff, List.forall₂_map_left_iff]
  apply List.forall₂_same.mpr
  intro b _
  by_cases hc : b.isbn = isbn
  · rw [if_pos hc]
    omega
  · rw [if_neg hc]

/-! ## C7: what is and is not terminal about a returned loan -/

/-- The loans table after any borrow outcome is the old table, possibly
with the new loan row appended. -/
theorem borrowChecks_loans_cases (cfg : Config) (s : LibraryState) (userId : Nat)
    (isbn : String) (now : Int) :
    ((borrowChecks cfg s userId isbn now).state).loans = s.loans ∨
    ((borrowChecks cfg s userId isbn now).state).loans
      = s.loans ++ [newLoanRow cfg userId isbn now] := by
  unfold borrowChecks
  split_ifs
  · left; rfl
  · left; rfl
  · cases hq : findAvailableBook s isbn with
    | none => exact Or.inl rfl
    | some bk => exact Or.inr rfl

/-- Same statement for the full `borrow` command. -/
theorem borrow_loans_cases (cfg : Config) (s : LibraryState) (userId : Nat)
    (userName : String) (isbn : String) (now : Int) :
    ((borrow cfg s userId userName isbn now).state).loans = s.loans ∨
    ((borrow cfg s userId userName isbn now).state).loans
      = s.loans ++ [newLoanRow cfg userId isbn now] := by
  unfold borrow
  cases hfu : findUser s userId with
  | none =>
      exact borrowChecks_loans_cases cfg
        { s with users := s.users ++
            [{ username := userName, userid := userId, banned := false }] }
        userId isbn now
  | some u =>
      by_cases hb : u.banned = true
      · left
        show ((if u.banned = true then BorrowOutcome.outBanned s
          else borrowChecks cfg s userId isbn now).state).loans = s.loans
        rw [if_pos hb]
        rfl
      · rcases borrowChecks_loans_cases cfg s userId isbn now with h | h
        · left
          show ((if u.banned = true then BorrowOutcome.outBanned s
            else borrowChecks cfg s userId isbn now).state).loans = s.loans
          rw [if_neg hb]
          exact h
        · right
          show ((if u.banned = true then BorrowOutcome.outBanned s
            else borrowChecks cfg s userId isbn now).state).loans
            = s.loans ++ [newLoanRow cfg userId isbn now]
          rw [if_neg hb]
          exact h

/-- Mapping a row rewrite over the loans table preserves a closed
loan's closedness and its immutable columns, entry by entry, as long as
the rewrite itself does. -/
theorem get_map_preserved (f : Loan → Loan) (L : List Loan)
    (hf : ∀ l, (l.returned = true → (f l).returned = true) ∧
      (f l).bdate = l.bdate ∧ (f l).userid = l.userid ∧ (f l).isbn = l.isbn)
    (k : Nat) (hk : k < L.length)
    (hr : (L.get ⟨k, hk⟩).returned = true) :
    ∀ hk2 : k < (L.map f).length,
      ((L.map f).get ⟨k, hk2⟩).returned = true ∧
      ((L.map f).get ⟨k, hk2⟩).bdate = (L.get ⟨k, hk⟩).bdate ∧
      ((L.map f).get ⟨k, hk2⟩).userid = (L.get ⟨k, hk⟩).userid ∧
      ((L.map f).get ⟨k, hk2⟩).isbn = (L.get ⟨k, hk⟩).isbn := by
  intro hk2
  rw [List.get_map]
  have h := hf (L.get ⟨k, hk⟩)
  exact ⟨h.1 hr, h.2.1, h.2.2.1, h.2.2.2⟩

/-- C7 (amended): a loan with `returned = TRUE` never becomes active
again, and no transaction ever rewrites its `bdate`, `userid` or `isbn`;
loan rows are also never deleted.  (Its `estrdate` and `rdate` are not
protected: `c7_counterexample` shows `renew` and `return` overwrite them,
because their UPDATE filters do not mention `returned`.) -/
theorem c7_amended (cfg : Config) (s : LibraryState) (op : Op) (k : Nat)
    (hk : k < s.loans.length)
    (hr : (s.loans.get ⟨k, hk⟩).returned = true) :
    s.loans.length ≤ (step cfg s op).loans.length ∧
    ∀ hk2 : k < (step cfg s op).loans.length,
      ((step cfg s op).loans.get ⟨k, hk2⟩).returned = true ∧
      ((step cfg s op).loans.get ⟨k, hk2⟩).bdate = (s.loans.get ⟨k, hk⟩).bdate ∧
      ((step cfg s op).loans.get ⟨k, hk2⟩).userid
        = (s.loans.get ⟨k, hk⟩).userid ∧
      ((step cfg s op).loans.get ⟨k, hk2⟩).isbn = (s.loans.get ⟨k, hk⟩).isbn := by
  cases op with
  | opBorrow userId userName isbn now =>
      rcases borrow_loans_cases cfg s userId userName isbn now with h | h
      · constructor
        · rw [show (step cfg s (Op.opBorrow userId userName isbn now)).loans
            = s.loans from h]
        · intro hk2
          have hgeq : (step cfg s (Op.opBorrow userId userName isbn now)).loans.get
              ⟨k, hk2⟩ = s.loans.get ⟨k, hk⟩ :=
            List.get_of_eq h ⟨k, hk2⟩
          rw [hgeq]
          exact ⟨hr, rfl, rfl, rfl⟩
      · constructor
        · rw [show (step cfg s (Op.opBorrow userId userName isbn now)).loans
            = s.loans ++ [newLoanRow cfg userId isbn now] from h]
          simp
        · intro hk2
          have hgeq : (step cfg s (Op.opBorrow userId userName isbn now)).loans.get
              ⟨k, hk2⟩ = s.loans.get ⟨k, hk⟩ :=
            (List.get_of_eq h ⟨k, hk2⟩).trans (List.get_append k hk)
          rw [hgeq]
          exact ⟨hr, rfl, rfl, rfl⟩
  | opReturn isbn userId now =>
      refine ⟨by simp [step, returnBook], ?_⟩
      intro hk2
      exact get_map_preserved
        (fun l => if l.isbn = isbn ∧ l.userid = userId then
          { l with returned := true, rdate := some now } else l)
        s.loans
        (fun l => by
          dsimp only
          by_cases hc : l.isbn = isbn ∧ l.userid = userId
          · rw [if_pos hc]
            exact ⟨fun _ => rfl, rfl, rfl, rfl⟩
          · rw [if_neg hc]
            exact ⟨fun hx => hx, rfl, rfl, rfl⟩)
        k hk hr hk2
  | opAdd isbn count =>
      exact ⟨le_refl _, fun hk2 => ⟨hr, rfl, rfl, rfl⟩⟩
  | opRemove isbn count =>
      exact ⟨le_refl _, fun hk2 => ⟨hr, rfl, rfl, rfl⟩⟩
  | opRenew isbn userId days now =>
      refine ⟨by simp [step, renew], ?_⟩
      intro hk2
      exact get_map_preserved
        (fun l => if l.isbn = isbn ∧ l.userid = userId then
          { l with estrdate := now + days * secondsPerDay } else l)
        s.loans
        (fun l => by
          dsimp only
          by_cases hc : l.isbn = isbn ∧ l.userid = userId
          · rw [if_pos hc]
            exact ⟨fun hx => hx, rfl, rfl, rfl⟩
          · rw [if_neg hc]
            exact ⟨fun hx => hx, rfl, rfl, rfl⟩)
        k hk hr hk2
  | opBan userId =>
      exact ⟨le_refl _, fun hk2 => ⟨hr, rfl, rfl, rfl⟩⟩
  | opUnban userId =>
      exact ⟨le_refl _, fun hk2 => ⟨hr, rfl, rfl, rfl⟩⟩
  | opDelete isbn now =>
      refine ⟨by simp [step, deleteBook], ?_⟩
      intro hk2
      exact get_map_preserved
        (fun l => if l.isbn = isbn then
          { l with returned := true, rdate := some now } else l)
        s.loans
        (fun l => by
          dsimp only
          by_cases hc : l.isbn = isbn
          · rw [if_pos hc]
            exact ⟨fun _ => rfl, rfl, rfl, rfl⟩
          · rw [if_neg hc]
            exact ⟨fun hx => hx, rfl, rfl, rfl⟩)
        k hk hr hk2

/-- Witness for `c7_amended`: renewing over the closed loan keeps it
closed with its immutable columns intact. -/
theorem c7_amended_witness :
    closedLoanState.loans.length
      ≤ (step cfg0 closedLoanState
          (Op.opRenew "9780441013593" 42 7 1000)).loans.length ∧
    ((step cfg0 closedLoanState
        (Op.opRenew "9780441013593" 42 7 1000)).loans.get
      ⟨0, by decide⟩).returned = true := by
  have h := c7_amended cfg0 closedLoanState
    (Op.opRenew "9780441013593" 42 7 1000) 0 (by decide) (by decide)
  exact ⟨h.1, (h.2 (by decide)).1⟩

/-! ## C8: ban and unban on an unknown user -/

/-- C8 (amended): `ban` and `unban` never create a user row, and on a
userid that has never been seen their UPDATE matches nothing: the state
is returned unchanged and the command still reports success — no
NotFound failure exists (`c8_counterexample`). -/
theorem c8_amended (s : LibraryState) (userId : Nat) :
    (ban s userId).users.length = s.users.length ∧
    (unban s userId).users.length = s.users.length ∧
    (findUser s userId = none → ban s userId = s ∧ unban s userId = s) := by
  refine ⟨by simp [ban, setBanned], by simp [unban, setBanned], ?_⟩
  intro hnone
  have hall : ∀ u ∈ s.users, ¬ u.userid = userId := by
    intro u hu hEq
    have hfalse := List.find?_eq_none.mp hnone u hu
    simp only [beq_iff_eq] at hfalse
    exact hfalse hEq
  have hmapid : ∀ b : Bool, s.users.map (fun u =>
      if u.userid = userId then { u with banned := b } else u) = s.users := by
    intro b
    conv_rhs => rw [← List.map_id s.users]
    apply List.map_congr_left
    intro u hu
    rw [if_neg (hall u hu)]
    rfl
  constructor
  · show setBanned s userId true = s
    unfold setBanned
    rw [hmapid true]
  · show setBanned s userId false = s
    unfold setBanned
    rw [hmapid false]

/-- Witness for `c8_amended`: the state with no users at all. -/
theorem c8_amended_witness :
    (ban noUsersState 42).users.length = noUsersState.users.length ∧
    (unban noUsersState 42).users.length = noUsersState.users.length ∧
    (ban noUsersState 42 = noUsersState ∧ unban noUsersState 42 = noUsersState) :=
  ⟨(c8_amended noUsersState 42).1, (c8_amended noUsersState 42).2.1,
    (c8_amended noUsersState 42).2.2 (by decide)⟩

/-! ## C9: the days-remaining computation of `due` -/

/-- C9: for every active loan of the user, `due` reports
`daysRemaining = floor((dueAt - now) in days) + 1` — the two floor bounds
pin the value to that formula — so a loan due exactly now reports 1, a
loan due one day ago reports 0, and the display classifies a loan as
overdue exactly when the remaining count is `<= 0`. -/
theorem c9_due_days (s : LibraryState) (userId : Nat) (t : Int) (l : Loan)
    (hl : l ∈ activeLoans s userId) :
    (l.isbn, daysRemaining l.estrdate t) ∈ due s userId t ∧
    secondsPerDay * (daysRemaining l.estrdate t - 1) ≤ l.estrdate - t ∧
    l.estrdate - t < secondsPerDay * (daysRemaining l.estrdate t) ∧
    daysRemaining t t = 1 ∧
    daysRemaining (t - secondsPerDay) t = 0 ∧
    ∀ r : Int, isOverdueDisplay r = true ↔ r ≤ 0 := by
  refine ⟨?_, ?_, ?_, ?_, ?_, ?_⟩
  · unfold due
    exact List.mem_map.mpr ⟨l, hl, rfl⟩
  · unfold daysRemaining secondsPerDay
    rw [Int.fdiv_eq_ediv _ (by norm_num)]
    omega
  · unfold daysRemaining secondsPerDay
    rw [Int.fdiv_eq_ediv _ (by norm_num)]
    omega
  · unfold daysRemaining secondsPerDay
    rw [Int.fdiv_eq_ediv _ (by norm_num)]
    omega
  · unfold daysRemaining secondsPerDay
    rw [Int.fdiv_eq_ediv _ (by norm_num)]
    omega
  · intro r
    unfold isOverdueDisplay
    simp

/-- Witness for `c9_due_days`: the open loan of `activeLoanState`,
observed at `t = 100`. -/
theorem c9_due_days_witness :
    openLoan ∈ activeLoans activeLoanState 42 ∧
    (openLoan.isbn, daysRemaining openLoan.estrdate 100)
      ∈ due activeLoanState 42 100 :=
  ⟨by decide, (c9_due_days activeLoanState 42 100 openLoan (by decide)).1⟩
